import Mathlib

/-!
Shallow embedding of the hans grocery-agent core: the Wegmans command
state machine (handleAdd / handleSearch / handleSelection / handleRemove /
handleList / handleClear and execute), the LLM agent loop (handleMessage),
the browser pool launch coalescing (getBrowser), and the pure search
truncation of searchMyItems / searchProducts.

Remote browser-automation primitives are modelled as oracle parameters of
type Except String alpha: an ok value is the value the primitive returned,
an error value is a thrown exception carrying its message.  The local
SQLite mirror of the grocery list is modelled as a list of item names,
newest first.  Each handler also returns the trace of remote primitives it
invoked, in order.
-/

namespace Hans

/-- A single apostrophe character, used to build message literals. -/
def apostrophe : String := String.mk [Char.ofNat 39]

/-- Substring containment: s contains pat somewhere. -/
def containsStr (s pat : String) : Prop := ∃ pre suf, s = pre ++ pat ++ suf

/-- Model of String.prototype.toLowerCase: lowercase every character. -/
def strLower (s : String) : String := String.mk (s.data.map Char.toLower)

/-- Whether the first character list starts the second one. -/
def headMatches : List Char → List Char → Bool
  | [], _ => true
  | _ :: _, [] => false
  | a :: as, b :: bs => a == b && headMatches as bs

/-- Whether the pattern occurs somewhere in the character list. -/
def occursIn (pat : List Char) : List Char → Bool
  | [] => pat.isEmpty
  | c :: cs => headMatches pat (c :: cs) || occursIn pat cs

/-- Model of String.prototype.includes: s contains pat. -/
def strContainsB (s pat : String) : Bool := occursIn pat.data s.data

/-- A search result row as extracted from the DOM, mirroring the
SearchResult interface of list.ts: name, optional price and size, and the
0-based index of the row on the page it came from. -/
structure SearchResult where
  name : String
  price : Option String := none
  size : Option String := none
  index : Nat
deriving DecidableEq, Repr

/-- An item of the live remote list, mirroring the ListItem interface. -/
structure ListItem where
  name : String
  price : Option String := none
  size : Option String := none
deriving DecidableEq, Repr

/-- Which search produced the candidates of a pending selection:
the source field of the PendingSelection interface, with the literal
values myItems and search of the TS union type. -/
inductive PSource where
  | myItems
  | search
deriving DecidableEq, Repr

/-- A pending disambiguation, mirroring the PendingSelection interface. -/
structure PendingSelection where
  query : String
  results : List SearchResult
  source : PSource
  timestamp : Nat
deriving DecidableEq, Repr

/-- The pendingSelections Map of wegmans/index.ts, modelled as an
association list in insertion order. -/
abbrev PendingMap := List (String × PendingSelection)

/-- Map.get: the value stored at key k, if any. -/
def mapGet (m : PendingMap) (k : String) : Option PendingSelection :=
  (m.find? (fun p => p.1 == k)).map (fun p => p.2)

/-- Map.set: overwrite the entry at key k if present, else append it. -/
def mapSet (m : PendingMap) (k : String) (v : PendingSelection) : PendingMap :=
  if m.any (fun p => p.1 == k) then
    m.map (fun p => if p.1 == k then (k, v) else p)
  else
    m ++ [(k, v)]

/-- Map.delete: drop the entry at key k. -/
def mapDelete (m : PendingMap) (k : String) : PendingMap :=
  m.filter (fun p => !(p.1 == k))

/-- The session key the action uses for every pendingSelections access:
the string literal default, hard-coded at every call site. -/
def defaultKey : String := "default"

/-- SELECTION_TIMEOUT, 5 minutes in milliseconds. -/
def selectionTimeout : Nat := 5 * 60 * 1000

/-- cleanupPendingSelections: drop entries older than the timeout. -/
def cleanupPendingSelections (now : Nat) (m : PendingMap) : PendingMap :=
  m.filter (fun p => !(decide (selectionTimeout < now - p.2.timestamp)))

/-- The local grocery mirror (grocery_items table), newest first;
addGroceryItem prepends, clearGroceryItems empties and reports the length. -/
abbrev DBState := List String

/-- Which array an ActionResult carries in its data field. -/
inductive ResultData where
  | noData
  | live (items : List ListItem)
  | cached (items : List String)
deriving DecidableEq, Repr

/-- The structured ActionResult of base.ts. -/
structure ActionResult where
  success : Bool
  message : String
  data : ResultData := ResultData.noData
deriving DecidableEq, Repr

/-- Remote automation primitives invoked through withPage, for tracing. -/
inductive RemoteCall where
  | searchMyItems (query : String)
  | searchProducts (query : String)
  | addMyItemToList (query : String) (index : Nat)
  | addSearchResultToList (query : String) (index : Nat)
  | removeItemFromList (name : String)
  | getListItems
  | clearList
deriving DecidableEq, Repr

/-- The full outcome of one handler invocation: the returned result, the
pendingSelections map afterwards, the local mirror afterwards, and the
remote primitives invoked, in order. -/
structure ExecOut where
  res : ActionResult
  pend : PendingMap
  db : DBState
  calls : List RemoteCall
deriving DecidableEq, Repr

def mkOk (m : String) : ActionResult := { success := true, message := m }

def mkFail (m : String) : ActionResult := { success := false, message := m }

/-! Pure models of the DOM-extraction searches of list.ts.  Each takes the
rows the page exposes and mirrors the map / filter / slice pipeline. -/

/-- searchMyItems of list.ts: map rows to (name, index), keep those whose
lowercased name contains the lowercased query, then slice(0, 5). -/
def searchMyItems (names : List String) (query : String) : List SearchResult :=
  (((names.enum.map
      (fun p => ({ name := p.2, index := p.1 } : SearchResult))).filter
    (fun item => strContainsB (strLower item.name) (strLower query))).take 5)

/-- searchProducts of list.ts: slice(0, 5) of the product cards, then map
each to a result whose index is its position in the sliced list. -/
def searchProducts (cards : List (String × Option String × Option String)) :
    List SearchResult :=
  (cards.take 5).enum.map
    (fun p => ({ name := p.2.1, price := p.2.2.1, size := p.2.2.2,
                 index := p.1 } : SearchResult))

/-! Message literals of wegmans/index.ts, built exactly as the source
template strings build them. -/

def noPendingMsg : String :=
  "No pending selection. Use \"add <item>\" to search first."

def rangeMsg (count : Nat) : String :=
  "Please pick a number between 1 and " ++ toString count

def addedListMsg (name : String) : String :=
  "Added \"" ++ name ++ "\" to your list"

def couldntAddMsg (name : String) : String :=
  "Couldn" ++ apostrophe ++ "t add \"" ++ name ++ "\". Please try again."

def selectionCatchMsg (e : String) : String := "Failed to add item: " ++ e

def addedPastMsg (name : String) : String :=
  "Added \"" ++ name ++ "\" from your past purchases"

/-- One line of the My Items menu: 1-based number, name, optional price. -/
def myItemsLine (i : Nat) (r : SearchResult) : String :=
  toString (i + 1) ++ ". " ++ r.name ++
    (match r.price with
     | some p => " - " ++ p
     | none => "")

def myItemsOptions (results : List SearchResult) : String :=
  String.intercalate "\n" (results.enum.map (fun p => myItemsLine p.1 p.2))

def myItemsMenuMsg (results : List SearchResult) : String :=
  "Found in your past purchases:\n\n" ++ myItemsOptions results ++
    "\n\nReply \"pick <number>\" to select, or I" ++ apostrophe ++
    "ll search the full catalog if none match."

def couldntFindMsg (item : String) : String :=
  "Couldn" ++ apostrophe ++ "t find \"" ++ item ++
    "\" on Wegmans. Try a different search term."

/-- One line of the catalog menu: 1-based number, name, optional size and
price. -/
def catalogLine (i : Nat) (r : SearchResult) : String :=
  toString (i + 1) ++ ". " ++ r.name ++
    (match r.size with
     | some s => " (" ++ s ++ ")"
     | none => "") ++
    (match r.price with
     | some p => " - " ++ p
     | none => "")

def catalogOptions (results : List SearchResult) : String :=
  String.intercalate "\n" (results.enum.map (fun p => catalogLine p.1 p.2))

def catalogMenuMsg (item : String) (results : List SearchResult) : String :=
  "Found " ++ toString results.length ++ " items for \"" ++ item ++
    "\":\n\n" ++ catalogOptions results ++
    "\n\nReply \"pick <number>\" to add one."

def addCatchMsg (item e : String) : String :=
  "Failed to search for \"" ++ item ++ "\": " ++ e

def removedMsg (item : String) : String :=
  "Removed \"" ++ item ++ "\" from your list"

def notInListMsg (item : String) : String :=
  "Couldn" ++ apostrophe ++ "t find \"" ++ item ++ "\" in your list"

def removeCatchMsg (item e : String) : String :=
  "Failed to remove \"" ++ item ++ "\": " ++ e

def emptyListMsg : String := "Your shopping list is empty"

def listLine (i : Nat) (item : ListItem) : String :=
  toString (i + 1) ++ ". " ++ item.name ++
    (match item.size with
     | some s => " (" ++ s ++ ")"
     | none => "") ++
    (match item.price with
     | some p => " - " ++ p
     | none => "")

def listMsg (items : List ListItem) : String :=
  "Your shopping list (" ++ toString items.length ++ " items):\n\n" ++
    String.intercalate "\n" (items.enum.map (fun p => listLine p.1 p.2))

def cachedLine (i : Nat) (name : String) : String :=
  toString (i + 1) ++ ". " ++ name

def cachedListMsg (items : List String) : String :=
  "(Cached) Your shopping list (" ++ toString items.length ++
    " items):\n\n" ++
    String.intercalate "\n" (items.enum.map (fun p => cachedLine p.1 p.2))

def listCatchMsg (e : String) : String := "Failed to get list: " ++ e

def clearedMsg (count : Nat) : String :=
  "Cleared your shopping list (" ++ toString count ++ " items removed)"

def clearFailMsg : String := "Failed to clear the list"

def clearCatchMsg (e : String) : String := "Failed to clear list: " ++ e

def unknownCmdMsg : String := "Unknown Wegmans command"

/-! Handler bodies.  Each body mirrors the try block of its handler and
returns Except: an ok value is the value the try block returned together
with the new state and the trace of remote calls; an error value is a
thrown exception together with the calls made before the throw.  In every
handler no state mutation precedes a throwing call, so the state at catch
time is the entry state; the caught handler functions below apply exactly
the catch block of the source to the entry state. -/

/-- Whether a My Items row is a case-insensitive exact name match. -/
def exactMatchPred (item : String) (r : SearchResult) : Bool :=
  strLower r.name == strLower item

/-- Body of handleAdd: cache-first search, exact-match resolve, menu,
catalog fallback. -/
def handleAddE (searchMyO : Except String (List SearchResult))
    (addMyO : Except String Bool)
    (searchProdO : Except String (List SearchResult))
    (addSearchO : Except String Bool)
    (pend : PendingMap) (db : DBState) (now : Nat) (item : String) :
    Except (String × List RemoteCall) ExecOut :=
  match searchMyO with
  | .error e => .error (e, [RemoteCall.searchMyItems item])
  | .ok myItemsResults =>
    if myItemsResults.length > 0 then
      let menuOut : ExecOut :=
        { res := mkOk (myItemsMenuMsg myItemsResults)
          pend := mapSet pend defaultKey
            { query := item, results := myItemsResults,
              source := PSource.myItems, timestamp := now }
          db := db
          calls := [RemoteCall.searchMyItems item] }
      match myItemsResults.find? (exactMatchPred item) with
      | some exactMatch =>
        match addMyO with
        | .error e =>
          .error (e, [RemoteCall.searchMyItems item,
                      RemoteCall.addMyItemToList item exactMatch.index])
        | .ok success =>
          if success then
            .ok { res := mkOk (addedPastMsg exactMatch.name)
                  pend := pend
                  db := exactMatch.name :: db
                  calls := [RemoteCall.searchMyItems item,
                            RemoteCall.addMyItemToList item exactMatch.index] }
          else
            .ok { menuOut with
                  calls := [RemoteCall.searchMyItems item,
                            RemoteCall.addMyItemToList item exactMatch.index] }
      | none => .ok menuOut
    else
      match searchProdO with
      | .error e =>
        .error (e, [RemoteCall.searchMyItems item,
                    RemoteCall.searchProducts item])
      | .ok searchResults =>
        match searchResults with
        | [] =>
          .ok { res := mkFail (couldntFindMsg item)
                pend := pend, db := db
                calls := [RemoteCall.searchMyItems item,
                          RemoteCall.searchProducts item] }
        | [single] =>
          match addSearchO with
          | .error e =>
            .error (e, [RemoteCall.searchMyItems item,
                        RemoteCall.searchProducts item,
                        RemoteCall.addSearchResultToList item 0])
          | .ok success =>
            if success then
              .ok { res := mkOk (addedListMsg single.name)
                    pend := pend
                    db := single.name :: db
                    calls := [RemoteCall.searchMyItems item,
                              RemoteCall.searchProducts item,
                              RemoteCall.addSearchResultToList item 0] }
            else
              .ok { res := mkOk (catalogMenuMsg item [single])
                    pend := mapSet pend defaultKey
                      { query := item, results := [single],
                        source := PSource.search, timestamp := now }
                    db := db
                    calls := [RemoteCall.searchMyItems item,
                              RemoteCall.searchProducts item,
                              RemoteCall.addSearchResultToList item 0] }
        | _ =>
          .ok { res := mkOk (catalogMenuMsg item searchResults)
                pend := mapSet pend defaultKey
                  { query := item, results := searchResults,
                    source := PSource.search, timestamp := now }
                db := db
                calls := [RemoteCall.searchMyItems item,
                          RemoteCall.searchProducts item] }

/-- handleAdd with its catch block applied. -/
def handleAdd (searchMyO : Except String (List SearchResult))
    (addMyO : Except String Bool)
    (searchProdO : Except String (List SearchResult))
    (addSearchO : Except String Bool)
    (pend : PendingMap) (db : DBState) (now : Nat) (item : String) :
    ExecOut :=
  match handleAddE searchMyO addMyO searchProdO addSearchO pend db now item with
  | .ok out => out
  | .error (e, tr) =>
    { res := mkFail (addCatchMsg item e), pend := pend, db := db, calls := tr }

/-- Body of handleSearch: the catalog path of handleAdd, skipping My
Items. -/
def handleSearchE (searchProdO : Except String (List SearchResult))
    (addSearchO : Except String Bool)
    (pend : PendingMap) (db : DBState) (now : Nat) (item : String) :
    Except (String × List RemoteCall) ExecOut :=
  match searchProdO with
  | .error e => .error (e, [RemoteCall.searchProducts item])
  | .ok searchResults =>
    match searchResults with
    | [] =>
      .ok { res := mkFail (couldntFindMsg item)
            pend := pend, db := db
            calls := [RemoteCall.searchProducts item] }
    | [single] =>
      match addSearchO with
      | .error e =>
        .error (e, [RemoteCall.searchProducts item,
                    RemoteCall.addSearchResultToList item 0])
      | .ok success =>
        if success then
          .ok { res := mkOk (addedListMsg single.name)
                pend := pend
                db := single.name :: db
                calls := [RemoteCall.searchProducts item,
                          RemoteCall.addSearchResultToList item 0] }
        else
          .ok { res := mkOk (catalogMenuMsg item [single])
                pend := mapSet pend defaultKey
                  { query := item, results := [single],
                    source := PSource.search, timestamp := now }
                db := db
                calls := [RemoteCall.searchProducts item,
                          RemoteCall.addSearchResultToList item 0] }
    | _ =>
      .ok { res := mkOk (catalogMenuMsg item searchResults)
            pend := mapSet pend defaultKey
              { query := item, results := searchResults,
                source := PSource.search, timestamp := now }
            db := db
            calls := [RemoteCall.searchProducts item] }

/-- handleSearch with its catch block applied. -/
def handleSearch (searchProdO : Except String (List SearchResult))
    (addSearchO : Except String Bool)
    (pend : PendingMap) (db : DBState) (now : Nat) (item : String) :
    ExecOut :=
  match handleSearchE searchProdO addSearchO pend db now item with
  | .ok out => out
  | .error (e, tr) =>
    { res := mkFail (addCatchMsg item e), pend := pend, db := db, calls := tr }

/-- Body of handleSelection.  The selection argument is the natural number
the pick regex captured; the source computes index := selection - 1 and
rejects index < 0 or index >= results.length, which for a natural
selection is selection < 1 or results.length < selection. -/
def handleSelectionE (addMyO : Except String Bool)
    (addSearchO : Except String Bool)
    (pend : PendingMap) (db : DBState) (selection : Nat) :
    Except (String × List RemoteCall) ExecOut :=
  match mapGet pend defaultKey with
  | none =>
    .ok { res := mkFail noPendingMsg, pend := pend, db := db, calls := [] }
  | some pending =>
    if h : selection < 1 ∨ pending.results.length < selection then
      .ok { res := mkFail (rangeMsg pending.results.length)
            pend := pend, db := db, calls := [] }
    else
      let selectedItem := pending.results.get
        ⟨selection - 1, by push_neg at h; omega⟩
      let call : RemoteCall :=
        match pending.source with
        | PSource.myItems =>
          RemoteCall.addMyItemToList pending.query selectedItem.index
        | PSource.search =>
          RemoteCall.addSearchResultToList pending.query selectedItem.index
      let addO : Except String Bool :=
        match pending.source with
        | PSource.myItems => addMyO
        | PSource.search => addSearchO
      match addO with
      | .error e => .error (e, [call])
      | .ok success =>
        if success then
          .ok { res := mkOk (addedListMsg selectedItem.name)
                pend := mapDelete pend defaultKey
                db := selectedItem.name :: db
                calls := [call] }
        else
          .ok { res := mkFail (couldntAddMsg selectedItem.name)
                pend := mapDelete pend defaultKey
                db := db
                calls := [call] }

/-- handleSelection with its catch block applied: the catch also deletes
the pending entry. -/
def handleSelection (addMyO : Except String Bool)
    (addSearchO : Except String Bool)
    (pend : PendingMap) (db : DBState) (selection : Nat) : ExecOut :=
  match handleSelectionE addMyO addSearchO pend db selection with
  | .ok out => out
  | .error (e, tr) =>
    { res := mkFail (selectionCatchMsg e)
      pend := mapDelete pend defaultKey, db := db, calls := tr }

/-- Body of handleRemove.  The DELETE statement removes every row whose
lowercased name equals the lowercased argument. -/
def handleRemoveE (removeO : Except String Bool)
    (pend : PendingMap) (db : DBState) (item : String) :
    Except (String × List RemoteCall) ExecOut :=
  match removeO with
  | .error e => .error (e, [RemoteCall.removeItemFromList item])
  | .ok success =>
    if success then
      .ok { res := mkOk (removedMsg item)
            pend := pend
            db := db.filter (fun n => !(strLower n == strLower item))
            calls := [RemoteCall.removeItemFromList item] }
    else
      .ok { res := mkFail (notInListMsg item)
            pend := pend, db := db
            calls := [RemoteCall.removeItemFromList item] }

/-- handleRemove with its catch block applied. -/
def handleRemove (removeO : Except String Bool)
    (pend : PendingMap) (db : DBState) (item : String) : ExecOut :=
  match handleRemoveE removeO pend db item with
  | .ok out => out
  | .error (e, tr) =>
    { res := mkFail (removeCatchMsg item e), pend := pend, db := db,
      calls := tr }

/-- Body of handleList. -/
def handleListE (getO : Except String (List ListItem))
    (pend : PendingMap) (db : DBState) :
    Except (String × List RemoteCall) ExecOut :=
  match getO with
  | .error e => .error (e, [RemoteCall.getListItems])
  | .ok items =>
    match items with
    | [] =>
      .ok { res := mkOk emptyListMsg, pend := pend, db := db,
            calls := [RemoteCall.getListItems] }
    | _ =>
      .ok { res := { success := true, message := listMsg items,
                     data := ResultData.live items }
            pend := pend, db := db, calls := [RemoteCall.getListItems] }

/-- handleList with its catch block applied: the catch falls back to the
local cached mirror when it is non-empty. -/
def handleList (getO : Except String (List ListItem))
    (pend : PendingMap) (db : DBState) : ExecOut :=
  match handleListE getO pend db with
  | .ok out => out
  | .error (e, tr) =>
    match db with
    | [] =>
      { res := mkFail (listCatchMsg e), pend := pend, db := db, calls := tr }
    | _ =>
      { res := { success := true, message := cachedListMsg db,
                 data := ResultData.cached db }
        pend := pend, db := db, calls := tr }

/-- Body of handleClear: on remote success the local mirror is emptied and
the reported count is the number of rows the local DELETE removed. -/
def handleClearE (clearO : Except String Bool)
    (pend : PendingMap) (db : DBState) :
    Except (String × List RemoteCall) ExecOut :=
  match clearO with
  | .error e => .error (e, [RemoteCall.clearList])
  | .ok success =>
    if success then
      .ok { res := mkOk (clearedMsg db.length)
            pend := pend, db := [], calls := [RemoteCall.clearList] }
    else
      .ok { res := mkFail clearFailMsg
            pend := pend, db := db, calls := [RemoteCall.clearList] }

/-- handleClear with its catch block applied. -/
def handleClear (clearO : Except String Bool)
    (pend : PendingMap) (db : DBState) : ExecOut :=
  match handleClearE clearO pend db with
  | .ok out => out
  | .error (e, tr) =>
    { res := mkFail (clearCatchMsg e), pend := pend, db := db, calls := tr }

/-- The parsed command the dispatch regexes of execute recognise. -/
inductive Cmd where
  | pick (n : Nat)
  | add (item : String)
  | searchCmd (item : String)
  | remove (item : String)
  | list
  | clear
  | unknown
deriving DecidableEq, Repr

/-- One oracle valuation for the remote primitives an invocation may
reach; each primitive is invoked at most once per invocation. -/
structure Oracles where
  searchMy : Except String (List SearchResult)
  searchProd : Except String (List SearchResult)
  addMy : Except String Bool
  addSearch : Except String Bool
  removeItem : Except String Bool
  getItems : Except String (List ListItem)
  clearL : Except String Bool

/-- execute of WegmansAction: sweep expired pending selections, then
dispatch on the matched command. -/
def execute (o : Oracles) (cmd : Cmd) (pend : PendingMap) (db : DBState)
    (now : Nat) : ExecOut :=
  let pend0 := cleanupPendingSelections now pend
  match cmd with
  | Cmd.pick n => handleSelection o.addMy o.addSearch pend0 db n
  | Cmd.add item =>
    handleAdd o.searchMy o.addMy o.searchProd o.addSearch pend0 db now item
  | Cmd.searchCmd item => handleSearch o.searchProd o.addSearch pend0 db now item
  | Cmd.remove item => handleRemove o.removeItem pend0 db item
  | Cmd.list => handleList o.getItems pend0 db
  | Cmd.clear => handleClear o.clearL pend0 db
  | Cmd.unknown =>
    { res := mkFail unknownCmdMsg, pend := pend0, db := db, calls := [] }

/-! The LLM agent loop of llm/agent.ts. -/

/-- A function call request carried by an LLM response. -/
structure FunctionCall where
  name : String
deriving DecidableEq, Repr

/-- An LLM response: optional text, and zero or more function calls. -/
structure LLMResponse where
  text : Option String := none
  functionCalls : List FunctionCall := []
deriving DecidableEq, Repr

/-- maxIterations of handleMessage. -/
def maxIterations : Nat := 5

def doneMsg : String := "Done!"

def apiKeyErrMsg : String :=
  "I" ++ apostrophe ++
  "m having trouble connecting to my brain. Please check the Gemini API key."

def genericErrMsg : String := "Sorry, something went wrong. Please try again."

/-- The catch block of handleMessage applied to a thrown message. -/
def agentCatch (e : String) : String :=
  if strContainsB e "API key" then apiKeyErrMsg else genericErrMsg

/-- The while loop of handleMessage, compiled to structural recursion on
the remaining iteration budget: fuel = maxIterations - iterations, and it
is the number of continueWithFunctionResults calls issued so far.  The
continuation oracle gives the response to the k-th continuation call, or
the exception it throws. -/
def runLoopAux (cont : Nat → Except String LLMResponse) :
    Nat → Nat → LLMResponse → Except String LLMResponse × Nat
  | 0, it, resp => (.ok resp, it)
  | fuel + 1, it, resp =>
    if resp.functionCalls.length > 0 then
      match cont (it + 1) with
      | .error e => (.error e, it + 1)
      | .ok r => runLoopAux cont fuel (it + 1) r
    else
      (.ok resp, it)

/-- The loop of handleMessage started on the first chat response. -/
def runLoop (cont : Nat → Except String LLMResponse) (resp : LLMResponse) :
    Except String LLMResponse × Nat :=
  runLoopAux cont maxIterations 0 resp

/-- handleMessage: the returned reply text, paired with the number of
continuation calls issued.  The chat oracle is the response of the initial
chat call, or the exception it throws. -/
def handleMessage (chatO : Except String LLMResponse)
    (cont : Nat → Except String LLMResponse) : String × Nat :=
  match chatO with
  | .error e => (agentCatch e, 0)
  | .ok first =>
    match runLoop cont first with
    | (.ok final, n) => (final.text.getD doneMsg, n)
    | (.error e, n) => (agentCatch e, n)

/-! The browser pool of browser/pool.ts: launch coalescing. -/

/-- The pool fields getBrowser reads and writes: the live connected
browser if any, and the in-flight initialisation promise if any.  Ids
name browser processes and promises. -/
structure PoolState where
  connected : Option Nat
  initP : Option Nat
deriving DecidableEq, Repr

/-- What one getBrowser caller ends up holding: either the already-live
browser, or the promise of an in-flight launch it will await. -/
inductive GetOutcome where
  | immediate (browserId : Nat)
  | awaitP (promiseId : Nat)
deriving DecidableEq, Repr

/-- The synchronous part of one getBrowser call, run to its first suspension
point: return the live browser, else adopt the in-flight promise, else
start a launch (incrementing the launch counter) and record its promise. -/
def getBrowser (s : PoolState) (launches : Nat) (fresh : Nat) :
    PoolState × Nat × GetOutcome :=
  match s.connected with
  | some b => (s, launches, GetOutcome.immediate b)
  | none =>
    match s.initP with
    | some p => (s, launches, GetOutcome.awaitP p)
    | none =>
      ({ s with initP := some fresh }, launches + 1, GetOutcome.awaitP fresh)

/-- n getBrowser calls arriving back to back on the single-threaded event
loop, before any launch resolves; returns the final state, the launch
count, and what each caller holds, in arrival order. -/
def arrivals (s : PoolState) (launches : Nat) (fresh : Nat) :
    Nat → PoolState × Nat × List GetOutcome
  | 0 => (s, launches, [])
  | n + 1 =>
    let r := getBrowser s launches fresh
    let rest := arrivals r.1 r.2.1 (fresh + 1) n
    (rest.1, rest.2.1, r.2.2 :: rest.2.2)

/-- A cold pool: no live browser, no in-flight launch. -/
def coldPool : PoolState := { connected := none, initP := none }

/-! Sample values used by concrete witnesses. -/

def sr0 : SearchResult := { name := "Wegmans 2% Milk", index := 0 }

def sr1 : SearchResult := { name := "Wegmans Whole Milk", index := 1 }

def sampleEntry : PendingSelection :=
  { query := "milk", results := [sr0, sr1], source := PSource.myItems,
    timestamp := 0 }

def samplePend : PendingMap := [(defaultKey, sampleEntry)]

/-! Map lemmas. -/

theorem mapGet_mapDelete_self (m : PendingMap) (k : String) :
    mapGet (mapDelete m k) k = none := by
  unfold mapGet mapDelete
  rw [Option.map_eq_none']
  rw [List.find?_eq_none]
  intro x hx
  have hmem := List.mem_filter.mp hx
  simpa using hmem.2

theorem mapGet_mapSet_self (m : PendingMap) (k : String)
    (v : PendingSelection) : mapGet (mapSet m k v) k = some v := by
  unfold mapGet mapSet
  by_cases h : m.any (fun p => p.1 == k) = true
  · simp only [h, if_true]
    induction m with
    | nil => simp at h
    | cons a t ih =>
      simp only [List.any_cons, Bool.or_eq_true] at h
      by_cases ha : (a.1 == k) = true
      · simp only [List.map_cons, if_pos ha]
        rw [List.find?_cons_of_pos]
        · rfl
        · exact beq_self_eq_true k
      · rcases h with h | h
        · exact absurd h ha
        · simp only [List.map_cons, if_neg ha]
          rw [List.find?_cons]
          simp only [ha, if_false]
          exact ih h
  · simp only [h, if_false, Bool.false_eq_true]
    rw [List.find?_append]
    have hnone : m.find? (fun p => p.1 == k) = none := by
      rw [List.find?_eq_none]
      intro x hx hpx
      exact h (List.any_eq_true.mpr ⟨x, hx, hpx⟩)
    rw [hnone]
    simp [List.find?_cons]

/-! Characterisation of handleSelection. -/

theorem handleSelection_of_no_pending (a1 a2 : Except String Bool)
    (pend : PendingMap) (db : DBState) (n : Nat)
    (hget : mapGet pend defaultKey = none) :
    handleSelection a1 a2 pend db n =
      { res := mkFail noPendingMsg, pend := pend, db := db, calls := [] } := by
  unfold handleSelection handleSelectionE
  rw [hget]

theorem handleSelection_of_out_of_range (a1 a2 : Except String Bool)
    (pend : PendingMap) (db : DBState) (n : Nat) (entry : PendingSelection)
    (hget : mapGet pend defaultKey = some entry)
    (h : n < 1 ∨ entry.results.length < n) :
    handleSelection a1 a2 pend db n =
      { res := mkFail (rangeMsg entry.results.length), pend := pend,
        db := db, calls := [] } := by
  unfold handleSelection handleSelectionE
  rw [hget]
  simp only [dif_pos h]

theorem handleSelection_pend_of_in_range (a1 a2 : Except String Bool)
    (pend : PendingMap) (db : DBState) (n : Nat) (entry : PendingSelection)
    (hget : mapGet pend defaultKey = some entry)
    (h1 : 1 ≤ n) (h2 : n ≤ entry.results.length) :
    (handleSelection a1 a2 pend db n).pend = mapDelete pend defaultKey := by
  unfold handleSelection handleSelectionE
  rw [hget]
  have h : ¬ (n < 1 ∨ entry.results.length < n) := by omega
  simp only [dif_neg h]
  cases hs : entry.source
  case myItems =>
    cases a1 with
    | error e => rfl
    | ok b => cases b <;> rfl
  case search =>
    cases a2 with
    | error e => rfl
    | ok b => cases b <;> rfl

theorem handleSelection_calls_of_in_range (a1 a2 : Except String Bool)
    (pend : PendingMap) (db : DBState) (n : Nat) (entry : PendingSelection)
    (it : SearchResult)
    (hget : mapGet pend defaultKey = some entry)
    (h1 : 1 ≤ n) (h2 : n ≤ entry.results.length)
    (hit : entry.results[n - 1]? = some it) :
    (handleSelection a1 a2 pend db n).calls =
      [match entry.source with
       | PSource.myItems => RemoteCall.addMyItemToList entry.query it.index
       | PSource.search =>
         RemoteCall.addSearchResultToList entry.query it.index] := by
  unfold handleSelection handleSelectionE
  rw [hget]
  have h : ¬ (n < 1 ∨ entry.results.length < n) := by omega
  simp only [dif_neg h]
  have h3 : n - 1 < entry.results.length := by omega
  have hv : entry.results[n - 1] = it := by
    rw [List.getElem?_eq_getElem h3] at hit
    exact Option.some.inj hit
  simp only [List.get_eq_getElem, hv]
  cases entry.source
  case myItems =>
    cases a1 with
    | error e => rfl
    | ok b => cases b <;> rfl
  case search =>
    cases a2 with
    | error e => rfl
    | ok b => cases b <;> rfl

theorem handleSelection_success_range (a1 a2 : Except String Bool)
    (pend : PendingMap) (db : DBState) (n : Nat) (entry : PendingSelection)
    (hget : mapGet pend defaultKey = some entry)
    (hs : (handleSelection a1 a2 pend db n).res.success = true) :
    1 ≤ n ∧ n ≤ entry.results.length := by
  by_cases h : n < 1 ∨ entry.results.length < n
  · rw [handleSelection_of_out_of_range a1 a2 pend db n entry hget h] at hs
    simp [mkFail] at hs
  · omega

/-- C1 counterexample: a pick(5) invocation made while a PendingSelection
with 2 candidates exists for the session key returns (out-of-range
failure) without deleting the entry: the same PendingSelection is still
present afterwards, so the claim that the entry is deleted on every
outcome, including the out-of-range one, is false on the code. -/
theorem pick_out_of_range_retains_pending :
    mapGet (handleSelection (Except.ok true) (Except.ok true) samplePend
      ([] : DBState) 5).pend defaultKey = some sampleEntry := by decide

/-- C1 (amended): a pick(n) invocation made while a PendingSelection
exists deletes the entry whenever n is inside the range
1..candidates.length — on resolution success, resolution failure and
resolution exception alike; when n is outside that range (or n = 0) the
validation failure returns early and the entry is left in place,
reusable by a later pick. -/
theorem pick_consumes_pending_in_range (a1 a2 : Except String Bool)
    (pend : PendingMap) (db : DBState) (n : Nat) (entry : PendingSelection)
    (hget : mapGet pend defaultKey = some entry) :
    (1 ≤ n → n ≤ entry.results.length →
      mapGet (handleSelection a1 a2 pend db n).pend defaultKey = none) ∧
    ((n < 1 ∨ entry.results.length < n) →
      (handleSelection a1 a2 pend db n).pend = pend) := by
  constructor
  · intro h1 h2
    rw [handleSelection_pend_of_in_range a1 a2 pend db n entry hget h1 h2]
    exact mapGet_mapDelete_self pend defaultKey
  · intro h
    rw [handleSelection_of_out_of_range a1 a2 pend db n entry hget h]

/-- Witness for the amended C1 theorem at concrete inputs: pick(2) on a
2-candidate pending deletes the entry; pick(5) leaves the map unchanged. -/
theorem pick_consumes_pending_in_range_witness :
    mapGet (handleSelection (Except.ok true) (Except.ok true) samplePend
      ([] : DBState) 2).pend defaultKey = none ∧
    (handleSelection (Except.ok true) (Except.ok true) samplePend
      ([] : DBState) 5).pend = samplePend :=
  ⟨(pick_consumes_pending_in_range (Except.ok true) (Except.ok true)
      samplePend [] 2 sampleEntry (by decide)).1 (by decide) (by decide),
   (pick_consumes_pending_in_range (Except.ok true) (Except.ok true)
      samplePend [] 5 sampleEntry (by decide)).2 (by decide)⟩

/-- C2: a pick(n) invocation with no PendingSelection for the session key
returns a structured failure with no remote primitive invoked; with a
pending of k candidates and n outside 1..k it returns a failure naming
the range 1..k, again with no remote primitive invoked; and with n inside
1..k the single remote call resolves through the stored source (cache
primitive for myItems, catalog primitive for search), passing the stored
original query and the original page index of the stored candidate. -/
theorem pick_validation_and_resolution (a1 a2 : Except String Bool)
    (pend : PendingMap) (db : DBState) (n : Nat) :
    (mapGet pend defaultKey = none →
      handleSelection a1 a2 pend db n =
        { res := mkFail noPendingMsg, pend := pend, db := db,
          calls := [] }) ∧
    (∀ entry, mapGet pend defaultKey = some entry →
      (n < 1 ∨ entry.results.length < n) →
      handleSelection a1 a2 pend db n =
        { res := mkFail (rangeMsg entry.results.length), pend := pend,
          db := db, calls := [] }) ∧
    (∀ entry it, mapGet pend defaultKey = some entry →
      1 ≤ n → n ≤ entry.results.length →
      entry.results[n - 1]? = some it →
      (handleSelection a1 a2 pend db n).calls =
        [match entry.source with
         | PSource.myItems =>
           RemoteCall.addMyItemToList entry.query it.index
         | PSource.search =>
           RemoteCall.addSearchResultToList entry.query it.index]) := by
  refine ⟨?_, ?_, ?_⟩
  · intro hget
    exact handleSelection_of_no_pending a1 a2 pend db n hget
  · intro entry hget h
    exact handleSelection_of_out_of_range a1 a2 pend db n entry hget h
  · intro entry it hget h1 h2 hit
    exact handleSelection_calls_of_in_range a1 a2 pend db n entry it hget
      h1 h2 hit

/-- Witness for the C2 theorem at concrete inputs: missing pending,
out-of-range pick on a 2-candidate pending, and a valid pick(2) resolving
through the stored cache source with original index 1 and query milk. -/
theorem pick_validation_and_resolution_witness :
    handleSelection (Except.ok true) (Except.ok true) ([] : PendingMap)
      ([] : DBState) 1 =
      { res := mkFail noPendingMsg, pend := [], db := [], calls := [] } ∧
    handleSelection (Except.ok true) (Except.ok true) samplePend
      ([] : DBState) 5 =
      { res := mkFail (rangeMsg 2), pend := samplePend, db := [],
        calls := [] } ∧
    (handleSelection (Except.ok true) (Except.ok true) samplePend
      ([] : DBState) 2).calls = [RemoteCall.addMyItemToList "milk" 1] :=
  ⟨(pick_validation_and_resolution (Except.ok true) (Except.ok true)
      [] [] 1).1 (by decide),
   (pick_validation_and_resolution (Except.ok true) (Except.ok true)
      samplePend [] 5).2.1 sampleEntry (by decide) (by decide),
   (pick_validation_and_resolution (Except.ok true) (Except.ok true)
      samplePend [] 2).2.2 sampleEntry sr1 (by decide) (by decide)
      (by decide) (by decide)⟩

theorem runLoopAux_count_le (cont : Nat → Except String LLMResponse) :
    ∀ fuel it resp, (runLoopAux cont fuel it resp).2 ≤ it + fuel := by
  intro fuel
  induction fuel with
  | zero => intro it resp; simp [runLoopAux]
  | succ f ih =>
    intro it resp
    unfold runLoopAux
    by_cases h : resp.functionCalls.length > 0
    · simp only [if_pos h]
      cases hc : cont (it + 1) with
      | error e =>
        show it + 1 ≤ it + (f + 1)
        omega
      | ok r =>
        have hih := ih (it + 1) r
        show (runLoopAux cont f (it + 1) r).2 ≤ it + (f + 1)
        omega
    · simp only [if_neg h]
      omega

/-- C3: handleMessage issues at most maxIterations = 5 continuation calls
to the conversation service per inbound message, for every chat outcome
and every continuation oracle — including an adversarial one that always
returns further tool calls; the loop is a total function (it terminates),
and when the loop ends with a response the reply is the text of that
response
when present, otherwise the generic closing message. -/
theorem agent_loop_bounded (chatO : Except String LLMResponse)
    (cont : Nat → Except String LLMResponse) :
    (handleMessage chatO cont).2 ≤ maxIterations ∧
    (∀ first final ncalls, chatO = Except.ok first →
      runLoop cont first = (Except.ok final, ncalls) →
      (handleMessage chatO cont).1 = final.text.getD doneMsg) := by
  constructor
  · cases chatO with
    | error e => simp [handleMessage, maxIterations]
    | ok first =>
      have hle := runLoopAux_count_le cont maxIterations 0 first
      unfold handleMessage runLoop at *
      rcases hr : runLoopAux cont maxIterations 0 first with ⟨res, cnt⟩
      rw [hr] at hle
      cases res <;> simp [hr] <;> omega
  · intro first final ncalls hchat hrun
    subst hchat
    unfold handleMessage
    change (match runLoop cont first with
      | (Except.ok final, n) => (final.text.getD doneMsg, n)
      | (Except.error e, n) => (agentCatch e, n)).1 = _
    rw [hrun]

/-- The adversarial continuation oracle: every continuation response
carries another tool call and no text. -/
def advResp : LLMResponse := { functionCalls := [{ name := "show" }] }

def advCont : Nat → Except String LLMResponse := fun _ => Except.ok advResp

/-- Witness for the C3 theorem: under the always-tool-calling oracle the
loop stops after exactly 5 continuation calls and the reply is the
generic closing message. -/
theorem agent_loop_bounded_witness :
    (handleMessage (Except.ok advResp) advCont).2 ≤ maxIterations ∧
    (handleMessage (Except.ok advResp) advCont).1 = doneMsg :=
  ⟨(agent_loop_bounded (Except.ok advResp) advCont).1,
   (agent_loop_bounded (Except.ok advResp) advCont).2 advResp advResp 5
     rfl (by rfl)⟩

/-- C4: when the remote fetch of the live list throws and locally
persisted items exist, list() is not a hard failure: it returns a success
result whose message is explicitly labeled as cached — it starts with the
cached marker — and whose data is exactly the locally persisted mirror,
with both local stores left unchanged. -/
theorem list_remote_failure_degrades_to_cache (pend : PendingMap)
    (db : DBState) (e : String) (h : db ≠ []) :
    handleList (Except.error e) pend db =
      { res := { success := true, message := cachedListMsg db,
                 data := ResultData.cached db },
        pend := pend, db := db, calls := [RemoteCall.getListItems] } ∧
    ∃ t, cachedListMsg db = "(Cached)" ++ t := by
  constructor
  · unfold handleList handleListE
    cases db with
    | nil => exact absurd rfl h
    | cons a t => rfl
  · refine ⟨" Your shopping list (" ++ (toString db.length ++
      (" items):\n\n" ++
        String.intercalate "\n"
          (db.enum.map (fun p => cachedLine p.1 p.2)))), ?_⟩
    unfold cachedListMsg
    rw [show ("(Cached) Your shopping list (" : String) =
      "(Cached)" ++ " Your shopping list (" from rfl]
    simp only [String.append_assoc]

/-- Witness for the C4 theorem: remote list fetch throws while two local
items are cached. -/
theorem list_remote_failure_degrades_to_cache_witness :
    handleList (Except.error "Navigation timeout") ([] : PendingMap)
      ["Milk", "Eggs"] =
      { res := { success := true, message := cachedListMsg ["Milk", "Eggs"],
                 data := ResultData.cached ["Milk", "Eggs"] },
        pend := [], db := ["Milk", "Eggs"],
        calls := [RemoteCall.getListItems] } ∧
    ∃ t, cachedListMsg ["Milk", "Eggs"] = "(Cached)" ++ t :=
  list_remote_failure_degrades_to_cache [] ["Milk", "Eggs"]
    "Navigation timeout" (by decide)

/-- C8: when the remote clear reports failure or throws, clear() returns a
failure and the local cached mirror is left unchanged; when the remote
clear succeeds, the local mirror is emptied and the reported count is the
number of rows the local DELETE removed — the length of the local mirror,
not a remote re-count. -/
theorem clear_frame (clearO : Except String Bool) (pend : PendingMap)
    (db : DBState) (e : String) :
    (clearO = Except.ok false →
      handleClear clearO pend db =
        { res := mkFail clearFailMsg, pend := pend, db := db,
          calls := [RemoteCall.clearList] }) ∧
    (clearO = Except.error e →
      handleClear clearO pend db =
        { res := mkFail (clearCatchMsg e), pend := pend, db := db,
          calls := [RemoteCall.clearList] }) ∧
    (clearO = Except.ok true →
      handleClear clearO pend db =
        { res := mkOk (clearedMsg db.length), pend := pend, db := [],
          calls := [RemoteCall.clearList] }) := by
  refine ⟨?_, ?_, ?_⟩ <;> intro h <;> subst h <;> rfl

/-- Witness for the C8 theorem: remote-failure, remote-throw and
remote-success invocations over a two-item local mirror. -/
theorem clear_frame_witness :
    handleClear (Except.ok false) ([] : PendingMap) ["Milk", "Eggs"] =
      { res := mkFail clearFailMsg, pend := [], db := ["Milk", "Eggs"],
        calls := [RemoteCall.clearList] } ∧
    handleClear (Except.error "boom") ([] : PendingMap) ["Milk", "Eggs"] =
      { res := mkFail (clearCatchMsg "boom"), pend := [],
        db := ["Milk", "Eggs"], calls := [RemoteCall.clearList] } ∧
    handleClear (Except.ok true) ([] : PendingMap) ["Milk", "Eggs"] =
      { res := mkOk (clearedMsg 2), pend := [], db := [],
        calls := [RemoteCall.clearList] } :=
  ⟨(clear_frame (Except.ok false) [] ["Milk", "Eggs"] "boom").1 rfl,
   (clear_frame (Except.error "boom") [] ["Milk", "Eggs"] "boom").2.1 rfl,
   (clear_frame (Except.ok true) [] ["Milk", "Eggs"] "boom").2.2 rfl⟩

theorem strLower_append (a b : String) :
    strLower (a ++ b) = strLower a ++ strLower b := by
  simp [strLower, String.data_append]
  rfl

/-- C5: the add(item) protocol.  The cache-like past-purchases source is
always consulted first (the trace of every branch starts with the cache
search).  A case-insensitive exact name match whose remote add reports
success resolves immediately: remote add from cache plus local persist.
Non-exact cache matches put a PendingSelection with the cache source in
the store and return the 1-based numbered menu.  With zero cache matches
the catalog is searched: zero results is a failure whose message contains
couldn-apostrophe-t-find (case-insensitively), exactly one result whose
remote add reports success auto-resolves, and two or more results store a
PendingSelection with the catalog source. -/
theorem add_cache_first_protocol (ms srs : List SearchResult)
    (m s1 : SearchResult) (a1 a2 : Except String Bool)
    (pend : PendingMap) (db : DBState) (now : Nat) (item : String) :
    (ms.find? (exactMatchPred item) = some m → a1 = Except.ok true →
      handleAdd (Except.ok ms) a1 (Except.ok srs) a2 pend db now item =
        { res := mkOk (addedPastMsg m.name), pend := pend,
          db := m.name :: db,
          calls := [RemoteCall.searchMyItems item,
                    RemoteCall.addMyItemToList item m.index] }) ∧
    (ms ≠ [] → ms.find? (exactMatchPred item) = none →
      handleAdd (Except.ok ms) a1 (Except.ok srs) a2 pend db now item =
        { res := mkOk (myItemsMenuMsg ms),
          pend := mapSet pend defaultKey
            { query := item, results := ms, source := PSource.myItems,
              timestamp := now },
          db := db, calls := [RemoteCall.searchMyItems item] }) ∧
    (ms = [] → srs = [] →
      handleAdd (Except.ok ms) a1 (Except.ok srs) a2 pend db now item =
        { res := mkFail (couldntFindMsg item), pend := pend, db := db,
          calls := [RemoteCall.searchMyItems item,
                    RemoteCall.searchProducts item] } ∧
      containsStr (strLower (couldntFindMsg item))
        ("couldn" ++ apostrophe ++ "t find")) ∧
    (ms = [] → srs = [s1] → a2 = Except.ok true →
      handleAdd (Except.ok ms) a1 (Except.ok srs) a2 pend db now item =
        { res := mkOk (addedListMsg s1.name), pend := pend,
          db := s1.name :: db,
          calls := [RemoteCall.searchMyItems item,
                    RemoteCall.searchProducts item,
                    RemoteCall.addSearchResultToList item 0] }) ∧
    (ms = [] → 2 ≤ srs.length →
      handleAdd (Except.ok ms) a1 (Except.ok srs) a2 pend db now item =
        { res := mkOk (catalogMenuMsg item srs),
          pend := mapSet pend defaultKey
            { query := item, results := srs, source := PSource.search,
              timestamp := now },
          db := db,
          calls := [RemoteCall.searchMyItems item,
                    RemoteCall.searchProducts item] }) ∧
    (∀ (l : List SearchResult) (i : Nat) (r : SearchResult),
      l[i]? = some r →
      ∃ rest, (l.enum.map (fun p => myItemsLine p.1 p.2))[i]? =
        some (toString (i + 1) ++ rest)) := by
  refine ⟨?_, ?_, ?_, ?_, ?_, ?_⟩
  · intro hf ha1
    subst ha1
    unfold handleAdd handleAddE
    cases ms with
    | nil => simp [List.find?] at hf
    | cons r t =>
      have hpos : (r :: t).length > 0 := by simp
      simp only [if_pos hpos]
      rw [hf]
      rfl
  · intro hne hf
    unfold handleAdd handleAddE
    cases ms with
    | nil => exact absurd rfl hne
    | cons r t =>
      have hpos : (r :: t).length > 0 := by simp
      simp only [if_pos hpos]
      rw [hf]
  · intro h1 h2
    subst h1
    subst h2
    refine ⟨rfl, ?_⟩
    refine ⟨"", " \"" ++ strLower item ++
      "\" on wegmans. try a different search term.", ?_⟩
    unfold couldntFindMsg
    rw [strLower_append, strLower_append, strLower_append, strLower_append]
    rw [show strLower "Couldn" = "couldn" from rfl]
    rw [show strLower apostrophe = apostrophe from rfl]
    rw [show strLower "t find \"" = "t find" ++ " \"" from rfl]
    rw [show strLower "\" on Wegmans. Try a different search term." =
      "\" on wegmans. try a different search term." from rfl]
    simp only [String.append_assoc]
    rfl
  · intro h1 h2 ha2
    subst h1
    subst h2
    subst ha2
    rfl
  · intro h1 h2
    subst h1
    rcases srs with _ | ⟨x, _ | ⟨y, rest⟩⟩
    · simp at h2
    · simp at h2
    · rfl
  · intro l i r hir
    refine ⟨". " ++ r.name ++
      (match r.price with
       | some p => " - " ++ p
       | none => ""), ?_⟩
    rw [List.getElem?_map]
    rw [show l.enum = l.enumFrom 0 from rfl]
    rw [List.getElem?_enumFrom]
    rw [hir]
    simp only [Option.map_some']
    unfold myItemsLine
    rw [Nat.zero_add]
    simp only [String.append_assoc]

/-- Concrete values for the C5 witness. -/
def exactMilk : SearchResult := { name := "Milk", index := 3 }

def oatMilk : SearchResult := { name := "Oat Milk", index := 0 }

/-- Witness for the C5 theorem: every protocol branch exercised at a
concrete input. -/
theorem add_cache_first_protocol_witness :
    handleAdd (Except.ok [exactMilk]) (Except.ok true) (Except.ok [])
        (Except.ok true) ([] : PendingMap) ([] : DBState) 7 "milk" =
      { res := mkOk (addedPastMsg "Milk"), pend := [], db := ["Milk"],
        calls := [RemoteCall.searchMyItems "milk",
                  RemoteCall.addMyItemToList "milk" 3] } ∧
    handleAdd (Except.ok [sr0, sr1]) (Except.ok true) (Except.ok [])
        (Except.ok true) ([] : PendingMap) ([] : DBState) 7 "milk" =
      { res := mkOk (myItemsMenuMsg [sr0, sr1]),
        pend := mapSet [] defaultKey
          { query := "milk", results := [sr0, sr1],
            source := PSource.myItems, timestamp := 7 },
        db := [], calls := [RemoteCall.searchMyItems "milk"] } ∧
    (handleAdd (Except.ok []) (Except.ok true) (Except.ok [])
        (Except.ok true) ([] : PendingMap) ([] : DBState) 7 "zzz" =
      { res := mkFail (couldntFindMsg "zzz"), pend := [], db := [],
        calls := [RemoteCall.searchMyItems "zzz",
                  RemoteCall.searchProducts "zzz"] } ∧
      containsStr (strLower (couldntFindMsg "zzz"))
        ("couldn" ++ apostrophe ++ "t find")) ∧
    handleAdd (Except.ok []) (Except.ok true) (Except.ok [oatMilk])
        (Except.ok true) ([] : PendingMap) ([] : DBState) 7 "oat milk" =
      { res := mkOk (addedListMsg "Oat Milk"), pend := [],
        db := ["Oat Milk"],
        calls := [RemoteCall.searchMyItems "oat milk",
                  RemoteCall.searchProducts "oat milk",
                  RemoteCall.addSearchResultToList "oat milk" 0] } ∧
    handleAdd (Except.ok []) (Except.ok true) (Except.ok [sr0, sr1])
        (Except.ok true) ([] : PendingMap) ([] : DBState) 7 "milk" =
      { res := mkOk (catalogMenuMsg "milk" [sr0, sr1]),
        pend := mapSet [] defaultKey
          { query := "milk", results := [sr0, sr1],
            source := PSource.search, timestamp := 7 },
        db := [], calls := [RemoteCall.searchMyItems "milk",
                            RemoteCall.searchProducts "milk"] } ∧
    (∃ rest, ([sr0].enum.map (fun p => myItemsLine p.1 p.2))[0]? =
      some (toString (0 + 1) ++ rest)) :=
  ⟨(add_cache_first_protocol [exactMilk] [] exactMilk exactMilk
      (Except.ok true) (Except.ok true) [] [] 7 "milk").1
      (by decide) rfl,
   (add_cache_first_protocol [sr0, sr1] [] exactMilk exactMilk
      (Except.ok true) (Except.ok true) [] [] 7 "milk").2.1
      (by decide) (by decide),
   (add_cache_first_protocol [] [] exactMilk exactMilk
      (Except.ok true) (Except.ok true) [] [] 7 "zzz").2.2.1
      rfl rfl,
   (add_cache_first_protocol [] [oatMilk] exactMilk oatMilk
      (Except.ok true) (Except.ok true) [] [] 7 "oat milk").2.2.2.1
      rfl rfl rfl,
   (add_cache_first_protocol [] [sr0, sr1] exactMilk exactMilk
      (Except.ok true) (Except.ok true) [] [] 7 "milk").2.2.2.2.1
      rfl (by decide),
   (add_cache_first_protocol [] [] exactMilk exactMilk
      (Except.ok true) (Except.ok true) [] [] 7 "milk").2.2.2.2.2
      [sr0] 0 sr0 (by decide)⟩

/-! Reachability of the pendingSelections store under arbitrary
interleavings of invocations (by any users: the handlers take no user
identity at all). -/

/-- A store of pending selections reachable from the empty store by any
interleaving of execute invocations, with any commands, oracle outcomes,
local mirrors and clock values. -/
inductive ReachPend : PendingMap → Prop where
  | empty : ReachPend []
  | step (m : PendingMap) (o : Oracles) (cmd : Cmd) (db : DBState)
      (now : Nat) : ReachPend m → ReachPend (execute o cmd m db now).pend

/-- The store invariant: empty, or exactly one entry stored under the
shared literal key default. -/
def goodPend (m : PendingMap) : Prop :=
  m = [] ∨ ∃ v, m = [(defaultKey, v)]

theorem goodPend_cleanup (m : PendingMap) (now : Nat) (h : goodPend m) :
    goodPend (cleanupPendingSelections now m) := by
  rcases h with h | ⟨v, h⟩ <;> subst h
  · left; rfl
  · unfold cleanupPendingSelections
    by_cases hc :
        (!(decide (selectionTimeout < now - v.timestamp))) = true
    · right; exact ⟨v, by simp [List.filter, hc]⟩
    · left; simp [List.filter, hc]

theorem goodPend_mapSet (m : PendingMap) (v : PendingSelection)
    (h : goodPend m) : goodPend (mapSet m defaultKey v) := by
  rcases h with h | ⟨u, h⟩ <;> subst h
  · right; exact ⟨v, rfl⟩
  · right
    refine ⟨v, ?_⟩
    unfold mapSet
    simp [defaultKey]

theorem goodPend_mapDelete (m : PendingMap) (h : goodPend m) :
    goodPend (mapDelete m defaultKey) := by
  rcases h with h | ⟨u, h⟩ <;> subst h
  · left; rfl
  · left
    unfold mapDelete
    simp [List.filter, defaultKey]

theorem handleAdd_pend_cases (smO : Except String (List SearchResult))
    (a1 : Except String Bool) (spO : Except String (List SearchResult))
    (a2 : Except String Bool) (pend : PendingMap) (db : DBState)
    (now : Nat) (item : String) :
    (handleAdd smO a1 spO a2 pend db now item).pend = pend ∨
    ∃ v, (handleAdd smO a1 spO a2 pend db now item).pend =
      mapSet pend defaultKey v := by
  unfold handleAdd handleAddE
  cases smO with
  | error e => left; rfl
  | ok ms =>
    by_cases hlen : ms.length > 0
    · simp only [if_pos hlen]
      cases hf : ms.find? (exactMatchPred item) with
      | some ex =>
        cases a1 with
        | error e => left; rfl
        | ok b =>
          cases b
          · right; exact ⟨_, rfl⟩
          · left; rfl
      | none => right; exact ⟨_, rfl⟩
    · simp only [if_neg hlen]
      cases spO with
      | error e => left; rfl
      | ok srs =>
        rcases srs with _ | ⟨s, _ | ⟨t, rest⟩⟩
        · left; rfl
        · cases a2 with
          | error e => left; rfl
          | ok b =>
            cases b
            · right; exact ⟨_, rfl⟩
            · left; rfl
        · right; exact ⟨_, rfl⟩

theorem handleSearch_pend_cases (spO : Except String (List SearchResult))
    (a2 : Except String Bool) (pend : PendingMap) (db : DBState)
    (now : Nat) (item : String) :
    (handleSearch spO a2 pend db now item).pend = pend ∨
    ∃ v, (handleSearch spO a2 pend db now item).pend =
      mapSet pend defaultKey v := by
  unfold handleSearch handleSearchE
  cases spO with
  | error e => left; rfl
  | ok srs =>
    rcases srs with _ | ⟨s, _ | ⟨t, rest⟩⟩
    · left; rfl
    · cases a2 with
      | error e => left; rfl
      | ok b =>
        cases b
        · right; exact ⟨_, rfl⟩
        · left; rfl
    · right; exact ⟨_, rfl⟩

theorem handleSelection_pend_cases (a1 a2 : Except String Bool)
    (pend : PendingMap) (db : DBState) (n : Nat) :
    (handleSelection a1 a2 pend db n).pend = pend ∨
    (handleSelection a1 a2 pend db n).pend = mapDelete pend defaultKey := by
  unfold handleSelection handleSelectionE
  cases hget : mapGet pend defaultKey with
  | none => left; rfl
  | some pending =>
    by_cases hr : n < 1 ∨ pending.results.length < n
    · simp only [dif_pos hr]
      left; trivial
    · simp only [dif_neg hr]
      cases pending.source
      · cases a1 with
        | error e => right; rfl
        | ok b => cases b <;> right <;> rfl
      · cases a2 with
        | error e => right; rfl
        | ok b => cases b <;> right <;> rfl

theorem handleRemove_pend_eq (removeO : Except String Bool)
    (pend : PendingMap) (db : DBState) (item : String) :
    (handleRemove removeO pend db item).pend = pend := by
  unfold handleRemove handleRemoveE
  cases removeO with
  | error e => rfl
  | ok b => cases b <;> rfl

theorem handleList_pend_eq (getO : Except String (List ListItem))
    (pend : PendingMap) (db : DBState) :
    (handleList getO pend db).pend = pend := by
  unfold handleList handleListE
  cases getO with
  | error e => cases db <;> rfl
  | ok items => cases items <;> rfl

theorem handleClear_pend_eq (clearO : Except String Bool)
    (pend : PendingMap) (db : DBState) :
    (handleClear clearO pend db).pend = pend := by
  unfold handleClear handleClearE
  cases clearO with
  | error e => rfl
  | ok b => cases b <;> rfl

theorem goodPend_of_reach (m : PendingMap) (h : ReachPend m) :
    goodPend m := by
  induction h with
  | empty => left; rfl
  | step m o cmd db now _ ih =>
    have h0 : goodPend (cleanupPendingSelections now m) :=
      goodPend_cleanup m now ih
    unfold execute
    cases cmd
    case pick n =>
      rcases handleSelection_pend_cases o.addMy o.addSearch
        (cleanupPendingSelections now m) db n with hc | hc
      · rw [hc]; exact h0
      · rw [hc]; exact goodPend_mapDelete _ h0
    case add item =>
      rcases handleAdd_pend_cases o.searchMy o.addMy o.searchProd
        o.addSearch (cleanupPendingSelections now m) db now item with
        hc | ⟨v, hc⟩
      · rw [hc]; exact h0
      · rw [hc]; exact goodPend_mapSet _ v h0
    case searchCmd item =>
      rcases handleSearch_pend_cases o.searchProd o.addSearch
        (cleanupPendingSelections now m) db now item with hc | ⟨v, hc⟩
      · rw [hc]; exact h0
      · rw [hc]; exact goodPend_mapSet _ v h0
    case remove item =>
      rw [handleRemove_pend_eq]; exact h0
    case list =>
      rw [handleList_pend_eq]; exact h0
    case clear =>
      rw [handleClear_pend_eq]; exact h0
    case unknown => exact h0

/-- Concrete values for the C6 counterexample. -/
def breadA : SearchResult := { name := "Wegmans Bread", index := 0 }

def breadB : SearchResult := { name := "Wegmans Wheat Bread", index := 1 }

def milkEntry : PendingSelection :=
  { query := "milk", results := [sr0, sr1], source := PSource.myItems,
    timestamp := 0 }

def breadEntry : PendingSelection :=
  { query := "bread", results := [breadA, breadB],
    source := PSource.myItems, timestamp := 1 }

/-- One all-success oracle valuation, used by concrete witnesses. -/
def sampleOracles : Oracles :=
  { searchMy := Except.ok [sr0, sr1], searchProd := Except.ok [],
    addMy := Except.ok true, addSearch := Except.ok true,
    removeItem := Except.ok true, getItems := Except.ok [],
    clearL := Except.ok true }

/-- C6 counterexample: the operations of two distinct users do not live
under disjoint keys.  The disambiguating add of user A stores its
PendingSelection under the literal key default; the later disambiguating
add of user B for a different query stores under the very same key,
replacing the entry of A (which A never consumed); and a subsequent
pick(1) by A resolves the candidate of B.  The session key carries no user identity at all. -/
theorem interleaved_users_share_default_key :
    (handleAdd (Except.ok [sr0, sr1]) (Except.ok true) (Except.ok [])
        (Except.ok true) ([] : PendingMap) ([] : DBState) 0 "milk").pend =
      [(defaultKey, milkEntry)] ∧
    (handleAdd (Except.ok [breadA, breadB]) (Except.ok true)
        (Except.ok []) (Except.ok true) [(defaultKey, milkEntry)]
        ([] : DBState) 1 "bread").pend = [(defaultKey, breadEntry)] ∧
    (handleSelection (Except.ok true) (Except.ok true)
        [(defaultKey, breadEntry)] ([] : DBState) 1).res.message =
      addedListMsg "Wegmans Bread" := by
  refine ⟨by decide, by decide, by decide⟩

/-- C6 (amended): every store of pending selections reachable by any
interleaving of invocations — all users included, since the handlers take
no user identity — is either empty or a single entry under the one shared
literal key default; so at most one PendingSelection exists process-wide
at any time, and a new disambiguating add or search replaces the existing
entry (for whichever user created it) rather than stacking. -/
theorem pending_store_single_shared_key (m : PendingMap)
    (hm : ReachPend m) (v : PendingSelection) :
    (m = [] ∨ ∃ u, m = [(defaultKey, u)]) ∧
    mapSet m defaultKey v = [(defaultKey, v)] := by
  have hg := goodPend_of_reach m hm
  refine ⟨hg, ?_⟩
  rcases hg with h | ⟨u, h⟩ <;> subst h
  · rfl
  · unfold mapSet
    simp [defaultKey]

/-- Witness for the amended C6 theorem: a store reached by one
disambiguating add, then replaced by a fresh selection. -/
theorem pending_store_single_shared_key_witness :
    ((execute sampleOracles (Cmd.add "milk") [] [] 0).pend = [] ∨
      ∃ u, (execute sampleOracles (Cmd.add "milk") [] [] 0).pend =
        [(defaultKey, u)]) ∧
    mapSet (execute sampleOracles (Cmd.add "milk") [] [] 0).pend
        defaultKey sampleEntry = [(defaultKey, sampleEntry)] :=
  pending_store_single_shared_key _
    (ReachPend.step [] sampleOracles (Cmd.add "milk") [] 0 ReachPend.empty)
    sampleEntry

/-- C7: no remote-automation exception escapes a CommandAction operation.
The body of each operation may throw (the Except error carries the
exception message and the calls already made); the operation as invoked
by execute — the caught handler — converts every such throw into a
structured success-false result built by its catch block, for all six
operations: add, search, pick, remove, list and clear.  The list catch is
the one that degrades to the cached mirror instead when the mirror is
non-empty — still a structured result, never a propagated exception. -/
theorem remote_exceptions_become_results
    (smO spO : Except String (List SearchResult))
    (a1 a2 rmO clO : Except String Bool)
    (gO : Except String (List ListItem))
    (pend : PendingMap) (db : DBState) (now : Nat) (item : String)
    (n : Nat) (e : String) (tr : List RemoteCall) :
    (handleAddE smO a1 spO a2 pend db now item = Except.error (e, tr) →
      handleAdd smO a1 spO a2 pend db now item =
        { res := mkFail (addCatchMsg item e), pend := pend, db := db,
          calls := tr }) ∧
    (handleSearchE spO a2 pend db now item = Except.error (e, tr) →
      handleSearch spO a2 pend db now item =
        { res := mkFail (addCatchMsg item e), pend := pend, db := db,
          calls := tr }) ∧
    (handleSelectionE a1 a2 pend db n = Except.error (e, tr) →
      handleSelection a1 a2 pend db n =
        { res := mkFail (selectionCatchMsg e),
          pend := mapDelete pend defaultKey, db := db, calls := tr }) ∧
    (handleRemoveE rmO pend db item = Except.error (e, tr) →
      handleRemove rmO pend db item =
        { res := mkFail (removeCatchMsg item e), pend := pend, db := db,
          calls := tr }) ∧
    (handleListE gO pend db = Except.error (e, tr) → db = [] →
      handleList gO pend db =
        { res := mkFail (listCatchMsg e), pend := pend, db := db,
          calls := tr }) ∧
    (handleListE gO pend db = Except.error (e, tr) → db ≠ [] →
      handleList gO pend db =
        { res := { success := true, message := cachedListMsg db,
                   data := ResultData.cached db },
          pend := pend, db := db, calls := tr }) ∧
    (handleClearE clO pend db = Except.error (e, tr) →
      handleClear clO pend db =
        { res := mkFail (clearCatchMsg e), pend := pend, db := db,
          calls := tr }) := by
  refine ⟨?_, ?_, ?_, ?_, ?_, ?_, ?_⟩
  · intro h
    unfold handleAdd
    rw [h]
  · intro h
    unfold handleSearch
    rw [h]
  · intro h
    unfold handleSelection
    rw [h]
  · intro h
    unfold handleRemove
    rw [h]
  · intro h hdb
    subst hdb
    unfold handleList
    rw [h]
  · intro h hdb
    unfold handleList
    rw [h]
    cases db with
    | nil => exact absurd rfl hdb
    | cons a t => rfl
  · intro h
    unfold handleClear
    rw [h]

/-- Witness for the C7 theorem: every operation invoked with a throwing
remote oracle returns the structured failure of its catch block (or, for
list
with a non-empty mirror, the structured cached success). -/
theorem remote_exceptions_become_results_witness :
    handleAdd (Except.error "Timeout") (Except.ok true) (Except.ok [])
        (Except.ok true) ([] : PendingMap) ([] : DBState) 0 "milk" =
      { res := mkFail (addCatchMsg "milk" "Timeout"), pend := [], db := [],
        calls := [RemoteCall.searchMyItems "milk"] } ∧
    handleSearch (Except.error "Timeout") (Except.ok true)
        ([] : PendingMap) ([] : DBState) 0 "milk" =
      { res := mkFail (addCatchMsg "milk" "Timeout"), pend := [], db := [],
        calls := [RemoteCall.searchProducts "milk"] } ∧
    handleSelection (Except.error "Timeout") (Except.ok true) samplePend
        ([] : DBState) 1 =
      { res := mkFail (selectionCatchMsg "Timeout"),
        pend := mapDelete samplePend defaultKey, db := [],
        calls := [RemoteCall.addMyItemToList "milk" 0] } ∧
    handleRemove (Except.error "Timeout") ([] : PendingMap)
        ([] : DBState) "milk" =
      { res := mkFail (removeCatchMsg "milk" "Timeout"), pend := [],
        db := [], calls := [RemoteCall.removeItemFromList "milk"] } ∧
    handleList (Except.error "Timeout") ([] : PendingMap) ([] : DBState) =
      { res := mkFail (listCatchMsg "Timeout"), pend := [], db := [],
        calls := [RemoteCall.getListItems] } ∧
    handleList (Except.error "Timeout") ([] : PendingMap) ["Milk"] =
      { res := { success := true, message := cachedListMsg ["Milk"],
                 data := ResultData.cached ["Milk"] },
        pend := [], db := ["Milk"], calls := [RemoteCall.getListItems] } ∧
    handleClear (Except.error "Timeout") ([] : PendingMap)
        ([] : DBState) =
      { res := mkFail (clearCatchMsg "Timeout"), pend := [], db := [],
        calls := [RemoteCall.clearList] } :=
  ⟨(remote_exceptions_become_results (Except.error "Timeout")
      (Except.ok []) (Except.ok true) (Except.ok true) (Except.ok true)
      (Except.ok true) (Except.ok []) [] [] 0 "milk" 1 "Timeout"
      [RemoteCall.searchMyItems "milk"]).1 rfl,
   (remote_exceptions_become_results (Except.ok [])
      (Except.error "Timeout") (Except.ok true) (Except.ok true)
      (Except.ok true) (Except.ok true) (Except.ok []) [] [] 0 "milk" 1
      "Timeout" [RemoteCall.searchProducts "milk"]).2.1 rfl,
   (remote_exceptions_become_results (Except.ok [])
      (Except.ok []) (Except.error "Timeout") (Except.ok true)
      (Except.ok true) (Except.ok true) (Except.ok []) samplePend [] 0
      "milk" 1 "Timeout" [RemoteCall.addMyItemToList "milk" 0]).2.2.1 rfl,
   (remote_exceptions_become_results (Except.ok [])
      (Except.ok []) (Except.ok true) (Except.ok true)
      (Except.error "Timeout") (Except.ok true) (Except.ok []) [] [] 0
      "milk" 1 "Timeout" [RemoteCall.removeItemFromList "milk"]).2.2.2.1
      rfl,
   (remote_exceptions_become_results (Except.ok [])
      (Except.ok []) (Except.ok true) (Except.ok true) (Except.ok true)
      (Except.ok true) (Except.error "Timeout") [] [] 0 "milk" 1
      "Timeout" [RemoteCall.getListItems]).2.2.2.2.1 rfl rfl,
   (remote_exceptions_become_results (Except.ok [])
      (Except.ok []) (Except.ok true) (Except.ok true) (Except.ok true)
      (Except.ok true) (Except.error "Timeout") [] ["Milk"] 0 "milk" 1
      "Timeout" [RemoteCall.getListItems]).2.2.2.2.2.1 rfl (by decide),
   (remote_exceptions_become_results (Except.ok [])
      (Except.ok []) (Except.ok true) (Except.ok true) (Except.ok true)
      (Except.error "Timeout") (Except.ok []) [] [] 0 "milk" 1 "Timeout"
      [RemoteCall.clearList]).2.2.2.2.2.2 rfl⟩

theorem arrivals_inflight (p launches : Nat) :
    ∀ (n fresh : Nat),
      arrivals { connected := none, initP := some p } launches fresh n =
        ({ connected := none, initP := some p }, launches,
          List.replicate n (GetOutcome.awaitP p)) := by
  intro n
  induction n with
  | zero => intro fresh; rfl
  | succ k ih =>
    intro fresh
    show (let r := getBrowser { connected := none, initP := some p }
            launches fresh
          let rest := arrivals r.1 r.2.1 (fresh + 1) k
          (rest.1, rest.2.1, r.2.2 :: rest.2.2)) = _
    rw [show getBrowser { connected := none, initP := some p }
        launches fresh =
      ({ connected := none, initP := some p }, launches,
        GetOutcome.awaitP p) from rfl]
    dsimp only
    rw [ih (fresh + 1)]
    rfl

/-- C9: n simultaneous getBrowser calls arriving while no live browser
session exists (cold pool) perform exactly one underlying launch, and
every one of the n callers receives the same in-flight launch promise —
the launch started by the first arrival — so all of them end up with the
same browser session. -/
theorem cold_start_single_launch (n fresh : Nat) (h : 1 ≤ n) :
    (arrivals coldPool 0 fresh n).2.1 = 1 ∧
    (arrivals coldPool 0 fresh n).2.2 =
      List.replicate n (GetOutcome.awaitP fresh) := by
  cases n with
  | zero => omega
  | succ k =>
    have hstep :
        arrivals coldPool 0 fresh (k + 1) =
          ({ connected := none, initP := some fresh }, 1,
            GetOutcome.awaitP fresh ::
              List.replicate k (GetOutcome.awaitP fresh)) := by
      show (let r := getBrowser coldPool 0 fresh
            let rest := arrivals r.1 r.2.1 (fresh + 1) k
            (rest.1, rest.2.1, r.2.2 :: rest.2.2)) = _
      rw [show getBrowser coldPool 0 fresh =
        ({ connected := none, initP := some fresh }, 1,
          GetOutcome.awaitP fresh) from rfl]
      dsimp only
      rw [arrivals_inflight fresh 1 k (fresh + 1)]
    rw [hstep]
    exact ⟨rfl, by rw [List.replicate_succ]⟩

/-- Witness for the C9 theorem: three simultaneous cold-start callers,
one launch, all three holding the promise of that launch. -/
theorem cold_start_single_launch_witness :
    (arrivals coldPool 0 41 3).2.1 = 1 ∧
    (arrivals coldPool 0 41 3).2.2 =
      List.replicate 3 (GetOutcome.awaitP 41) :=
  cold_start_single_launch 3 41 (by decide)

/-- Whatever pending entry handleAdd stores holds either the cache search
results or the catalog search results as its candidates. -/
theorem handleAdd_stored_results (ms srs : List SearchResult)
    (a1 a2 : Except String Bool) (db : DBState) (now : Nat)
    (item : String) :
    ∀ v, (handleAdd (Except.ok ms) a1 (Except.ok srs) a2 [] db now
        item).pend = mapSet [] defaultKey v →
      v.results = ms ∨ v.results = srs := by
  intro v hv
  revert hv
  unfold handleAdd handleAddE
  by_cases hlen : ms.length > 0
  · simp only [if_pos hlen]
    cases hf : ms.find? (exactMatchPred item) with
    | some ex =>
      cases a1 with
      | error e =>
        intro hv
        simp [mapSet] at hv
      | ok b =>
        cases b
        · intro hv
          dsimp only at hv
          have := congrArg (fun m => mapGet m defaultKey) hv
          simp only [Bool.false_eq_true, if_false, mapGet_mapSet_self]
            at this
          have hveq := Option.some.inj this
          rw [← hveq]
          left; rfl
        · intro hv
          simp [mapSet] at hv
    | none =>
      intro hv
      dsimp only at hv
      have := congrArg (fun m => mapGet m defaultKey) hv
      simp only [Bool.false_eq_true, if_false, mapGet_mapSet_self]
        at this
      have hveq := Option.some.inj this
      rw [← hveq]
      left; rfl
  · simp only [if_neg hlen]
    rcases srs with _ | ⟨s, _ | ⟨t, rest⟩⟩
    · intro hv
      simp [mapSet] at hv
    · cases a2 with
      | error e =>
        intro hv
        simp [mapSet] at hv
      | ok b =>
        cases b
        · intro hv
          dsimp only at hv
          have := congrArg (fun m => mapGet m defaultKey) hv
          simp only [Bool.false_eq_true, if_false, mapGet_mapSet_self]
            at this
          have hveq := Option.some.inj this
          rw [← hveq]
          right; rfl
        · intro hv
          simp [mapSet] at hv
    · intro hv
      dsimp only at hv
      have := congrArg (fun m => mapGet m defaultKey) hv
      simp only [Bool.false_eq_true, if_false, mapGet_mapSet_self]
        at this
      have hveq := Option.some.inj this
      rw [← hveq]
      right; rfl

theorem handleAdd_stored_bound (ms srs : List SearchResult)
    (a1 a2 : Except String Bool) (db : DBState) (now : Nat) (item : String)
    (hms : ms.length ≤ 5) (hsrs : srs.length ≤ 5) :
    ∀ e2, mapGet (handleAdd (Except.ok ms) a1 (Except.ok srs) a2 [] db
      now item).pend defaultKey = some e2 → e2.results.length ≤ 5 := by
  intro e2 he2
  have hcases := handleAdd_pend_cases (Except.ok ms) a1 (Except.ok srs)
    a2 [] db now item
  have hstored := handleAdd_stored_results ms srs a1 a2 db now item
  rcases hcases with hc | ⟨v, hc⟩
  · rw [hc] at he2
    simp [mapGet] at he2
  · rw [hc, mapGet_mapSet_self] at he2
    have hv := Option.some.inj he2
    subst hv
    rcases hstored v hc with hr | hr <;> rw [hr] <;> assumption

/-- C10: both searches truncate to the first 5 matches — searchMyItems
filters then slices to 5, searchProducts slices the cards to 5 — so at
most 5 candidates are ever returned; consequently a disambiguating add
run against these searches stores a pending menu of at most 5 options,
and a successful pick(n) on any pending whose candidates came from such a
search has n at most 5. -/
theorem search_results_capped_at_five (names : List String) (q : String)
    (cards : List (String × Option String × Option String))
    (a1 a2 : Except String Bool) (pend : PendingMap) (db : DBState)
    (n now : Nat) (item : String) (entry : PendingSelection) :
    (searchMyItems names q).length ≤ 5 ∧
    (searchProducts cards).length ≤ 5 ∧
    (mapGet pend defaultKey = some entry → entry.results.length ≤ 5 →
      (handleSelection a1 a2 pend db n).res.success = true → n ≤ 5) ∧
    (∀ e2, mapGet (handleAdd (Except.ok (searchMyItems names item)) a1
        (Except.ok (searchProducts cards)) a2 [] db now item).pend
        defaultKey = some e2 → e2.results.length ≤ 5) := by
  refine ⟨?_, ?_, ?_, ?_⟩
  · unfold searchMyItems
    have := List.length_take_le 5
      ((names.enum.map
        (fun p => ({ name := p.2, index := p.1 } : SearchResult))).filter
        (fun item => strContainsB (strLower item.name) (strLower q)))
    exact this
  · unfold searchProducts
    rw [List.length_map]
    show ((List.take 5 cards).enumFrom 0).length ≤ 5
    rw [List.enumFrom_length]
    exact List.length_take_le 5 cards
  · intro hget hlen hs
    have := handleSelection_success_range a1 a2 pend db n entry hget hs
    omega
  · exact handleAdd_stored_bound (searchMyItems names item)
      (searchProducts cards) a1 a2 db now item
      (by
        unfold searchMyItems
        exact List.length_take_le 5 _)
      (by
        unfold searchProducts
        rw [List.length_map]
        show ((List.take 5 cards).enumFrom 0).length ≤ 5
        rw [List.enumFrom_length]
        exact List.length_take_le 5 cards)

/-- Witness for the C10 theorem: seven candidate rows truncate to 5; a
pick(2) on a 2-candidate pending succeeds with 2 at most 5; a
disambiguating add over a 7-row cache stores at most 5 options. -/
theorem search_results_capped_at_five_witness :
    (searchMyItems ["Milk", "2% Milk", "Whole Milk", "Oat Milk",
      "Soy Milk", "Goat Milk", "Milk Duds"] "milk").length ≤ 5 ∧
    (searchProducts [("A", none, none), ("B", none, none),
      ("C", none, none), ("D", none, none), ("E", none, none),
      ("F", none, none), ("G", none, none)]).length ≤ 5 ∧
    2 ≤ 5 ∧
    ∀ e2, mapGet (handleAdd
        (Except.ok (searchMyItems ["Milk", "2% Milk", "Whole Milk",
          "Oat Milk", "Soy Milk", "Goat Milk", "Milk Duds"] "milk"))
        (Except.ok true)
        (Except.ok (searchProducts []))
        (Except.ok true) [] [] 3 "milk").pend defaultKey = some e2 →
      e2.results.length ≤ 5 :=
  ⟨(search_results_capped_at_five ["Milk", "2% Milk", "Whole Milk",
      "Oat Milk", "Soy Milk", "Goat Milk", "Milk Duds"] "milk" []
      (Except.ok true) (Except.ok true) samplePend [] 2 3 "milk"
      sampleEntry).1,
   (search_results_capped_at_five [] "milk" [("A", none, none),
      ("B", none, none), ("C", none, none), ("D", none, none),
      ("E", none, none), ("F", none, none), ("G", none, none)]
      (Except.ok true) (Except.ok true) samplePend [] 2 3 "milk"
      sampleEntry).2.1,
   (search_results_capped_at_five [] "milk" [] (Except.ok true)
      (Except.ok true) samplePend [] 2 3 "milk" sampleEntry).2.2.1
      (by decide) (by decide) (by decide),
   (search_results_capped_at_five ["Milk", "2% Milk", "Whole Milk",
      "Oat Milk", "Soy Milk", "Goat Milk", "Milk Duds"] "milk" []
      (Except.ok true) (Except.ok true) samplePend [] 2 3 "milk"
      sampleEntry).2.2.2⟩

end Hans
